import Mathlib

/-!
Shallow embedding of `src/main.cpp` of the impedance-matcher sketch.

The sketch reads two potentiometers and a mode switch, and drives two
servos either from the potentiometers (MANUAL mode) or from a simulated
VSWR counter (AUTOMATED mode).  Hardware reads are modelled as explicit
inputs, the global `prev_vswr` counter as explicit state threaded through
the functions, and servo writes as the recorded integer arguments of the
`Servo::write` calls.  C++ `int`/`long` arithmetic is modelled on `Int`
with truncating division (`Int.tdiv`) and truncating remainder
(`Int.tmod`), matching C++ `/` and `%`; no value in the program
approaches the width of the machine types, so overflow does not occur.
-/

namespace ImpedanceMatcher

/-- Digital input levels as read by `digitalRead`. -/
inductive DigitalLevel where
  | HIGH
  | LOW
deriving DecidableEq, Repr

/-- `enum State { AUTOMATED, MANUAL };` -/
inductive State where
  | AUTOMATED
  | MANUAL
deriving DecidableEq, Repr

/-- `State state = MANUAL; // Start in MANUAL mode` -/
def initialState : State := State.MANUAL

/-- `int prev_vswr = 0;` — initial value of the simulator counter. -/
def prev_vswr_init : Int := 0

/-- Arduino `map`: `(x - in_min) * (out_max - out_min) / (in_max - in_min) + out_min`
computed in C++ `long` arithmetic, whose `/` truncates toward zero (`Int.tdiv`). -/
def map (x in_min in_max out_min out_max : Int) : Int :=
  Int.tdiv ((x - in_min) * (out_max - out_min)) (in_max - in_min) + out_min

/-- `parseSwitchState`: `digitalRead(switchPin) == HIGH ? MANUAL : AUTOMATED`,
with the read level passed in explicitly. -/
def parseSwitchState (switchState : DigitalLevel) : State :=
  if switchState = DigitalLevel.HIGH then State.MANUAL else State.AUTOMATED

/-- `get_vswr`: `prev_vswr = (prev_vswr + 3) % 100; return prev_vswr;`.
Takes the current value of the global `prev_vswr` and returns
(returned value, new value of `prev_vswr`).  C++ `%` is `Int.tmod`. -/
def get_vswr (prev_vswr : Int) : Int × Int :=
  let v := Int.tmod (prev_vswr + 3) 100
  (v, v)

/-- The two integer arguments passed to `tx_servo.write` and
`ant_servo.write` during one handler invocation. -/
structure ServoWrites where
  tx_write : Int
  ant_write : Int
deriving DecidableEq, Repr

/-- `controlServosAutomated`: samples `get_vswr`, maps it with
`map(vswr, 0, 1023, 0, 180)`, writes that to `tx_servo` and `0` to
`ant_servo`.  Returns the servo writes and the new `prev_vswr`. -/
def controlServosAutomated (prev_vswr : Int) : ServoWrites × Int :=
  let r := get_vswr prev_vswr
  let vswr := r.1
  let tx_angle := map vswr 0 1023 0 180
  (⟨tx_angle, 0⟩, r.2)

/-- `controlServosManual`: reads the two dials (passed in explicitly),
maps each with `map(dial, 0, 1023, 0, 180)` and writes the results to
the two servos.  It never touches `prev_vswr`, which is threaded through
unchanged to express that. -/
def controlServosManual (tx_dial ant_dial prev_vswr : Int) : ServoWrites × Int :=
  let tx_angle := map tx_dial 0 1023 0 180
  let ant_angle := map ant_dial 0 1023 0 180
  (⟨tx_angle, ant_angle⟩, prev_vswr)

/-- The hardware inputs sampled during one `loop()` iteration. -/
structure Inputs where
  switchLevel : DigitalLevel
  tx_dial : Int
  ant_dial : Int

/-- Which handler an iteration of `loop()` dispatched to. -/
inductive Handler where
  | automated
  | manual
deriving DecidableEq, Repr

/-- The global mutable state of the sketch: the `state` variable and the
`prev_vswr` counter. -/
structure LoopState where
  state : State
  prev_vswr : Int
deriving DecidableEq, Repr

/-- The state at power-on: `state = MANUAL`, `prev_vswr = 0`. -/
def initialLoopState : LoopState := ⟨initialState, prev_vswr_init⟩

/-- One iteration of `loop()`: recompute `state` from the switch via
`parseSwitchState`, then dispatch to the matching handler.  Returns
which handler ran, the servo writes it performed, and the new globals. -/
def loopStep (inp : Inputs) (s : LoopState) : Handler × ServoWrites × LoopState :=
  let st := parseSwitchState inp.switchLevel
  match st with
  | State.AUTOMATED =>
      let r := controlServosAutomated s.prev_vswr
      (Handler.automated, r.1, ⟨st, r.2⟩)
  | State.MANUAL =>
      let r := controlServosManual inp.tx_dial inp.ant_dial s.prev_vswr
      (Handler.manual, r.1, ⟨st, r.2⟩)

/-- Run `loop()` once per element of `inps`, collecting the handler
dispatched on each iteration and the final global state. -/
def loopRun (inps : List Inputs) (s : LoopState) : List Handler × LoopState :=
  match inps with
  | [] => ([], s)
  | i :: rest =>
      let r := loopStep i s
      let rr := loopRun rest r.2.2
      (r.1 :: rr.1, rr.2)

/-- The value of `prev_vswr` after `k` calls to `get_vswr`, starting
from the power-on value `0`. -/
def vswrIter : Nat → Int
  | 0 => prev_vswr_init
  | k + 1 => (get_vswr (vswrIter k)).2

/-! ## Helper lemmas -/

/-- For a nonnegative argument, `map` into `[0,180]` is Euclidean
division of `r * 180` by `1023` (C++ truncation agrees with floor
there). -/
lemma map_eq_ediv_of_nonneg (r : Int) (h : 0 ≤ r) :
    map r 0 1023 0 180 = (r * 180) / 1023 := by
  unfold map
  rw [Int.sub_zero, Int.sub_zero, Int.sub_zero, Int.add_zero,
    Int.tdiv_eq_ediv (by positivity) (by norm_num)]

/-- For a nonnegative counter, the `%` in `get_vswr` agrees with
Euclidean remainder. -/
lemma get_vswr_eq_emod (c : Int) (h : 0 ≤ c) :
    (get_vswr c).2 = (c + 3) % 100 := by
  unfold get_vswr
  exact Int.tmod_eq_emod (by omega) (by norm_num)

/-- A `loop()` iteration whose switch read is LOW dispatches to the
automated handler: it maps the freshly advanced counter to the tx servo,
writes 0 to the ant servo, and stores the advanced counter. -/
lemma loopStep_low (i : Inputs) (t : LoopState)
    (hi : i.switchLevel = DigitalLevel.LOW) :
    loopStep i t = (Handler.automated,
      ⟨map (Int.tmod (t.prev_vswr + 3) 100) 0 1023 0 180, 0⟩,
      ⟨State.AUTOMATED, Int.tmod (t.prev_vswr + 3) 100⟩) := by
  simp [loopStep, parseSwitchState, hi, controlServosAutomated, get_vswr]

/-- A `loop()` iteration whose switch read is HIGH dispatches to the
manual handler and leaves the counter unchanged. -/
lemma loopStep_high (i : Inputs) (t : LoopState)
    (hi : i.switchLevel = DigitalLevel.HIGH) :
    loopStep i t = (Handler.manual,
      ⟨map i.tx_dial 0 1023 0 180, map i.ant_dial 0 1023 0 180⟩,
      ⟨State.MANUAL, t.prev_vswr⟩) := by
  simp [loopStep, parseSwitchState, hi, controlServosManual]

/-- Three successive `+3 mod 100` counter advances from a nonnegative
start, written so each equation's left side is the literal shape left
by the previous rewrite. -/
lemma counter_chain (c : Int) (hc : 0 ≤ c) :
    Int.tmod (c + 3) 100 = (c + 3) % 100 ∧
    Int.tmod ((c + 3) % 100 + 3) 100 = (c + 6) % 100 ∧
    Int.tmod ((c + 6) % 100 + 3) 100 = (c + 9) % 100 := by
  have n1 : (0 : Int) ≤ (c + 3) % 100 := Int.emod_nonneg _ (by norm_num)
  have n2 : (0 : Int) ≤ (c + 6) % 100 := Int.emod_nonneg _ (by norm_num)
  refine ⟨Int.tmod_eq_emod (by omega) (by norm_num), ?_, ?_⟩
  · rw [Int.tmod_eq_emod (by omega) (by norm_num)]
    omega
  · rw [Int.tmod_eq_emod (by omega) (by norm_num)]
    omega

/-- Closed form of the iterated counter: after `k` calls it holds
`(3 * k) mod 100`. -/
lemma vswrIter_eq (k : Nat) : vswrIter k = (3 * (k : Int)) % 100 := by
  induction k with
  | zero => rfl
  | succ k ih =>
      have hk : (0 : Int) ≤ 3 * (k : Int) % 100 := Int.emod_nonneg _ (by norm_num)
      have h1 : vswrIter (k + 1) = (vswrIter k + 3) % 100 := by
        rw [vswrIter, get_vswr_eq_emod _ (by rw [ih]; exact hk)]
      rw [h1, ih]
      push_cast
      omega

/-! ## Claims -/

/-- C1: for every raw analog sample `r` in `[0,1023]`, the angle-scaling
step `map(r, 0, 1023, 0, 180)` used by both handlers returns
`floor(r * 180 / 1023)`, and the result lies in `[0,180]`. -/
theorem c1_scaling_floor_and_range (r : Int) (h0 : 0 ≤ r) (h1 : r ≤ 1023) :
    map r 0 1023 0 180 = Int.fdiv (r * 180) 1023 ∧
    0 ≤ map r 0 1023 0 180 ∧ map r 0 1023 0 180 ≤ 180 := by
  rw [map_eq_ediv_of_nonneg r h0, Int.fdiv_eq_ediv _ (by norm_num)]
  refine ⟨rfl, ?_, ?_⟩ <;> omega

theorem c1_scaling_floor_and_range_witness :
    map 512 0 1023 0 180 = Int.fdiv (512 * 180) 1023 ∧
    0 ≤ map 512 0 1023 0 180 ∧ map 512 0 1023 0 180 ≤ 180 :=
  c1_scaling_floor_and_range 512 (by decide) (by decide)

/-- C2 fails on the code: Arduino's `map` does not clamp, so the raw
input `-50` yields `-8` (not `0`) and `2000` yields `351` (not `180`). -/
theorem c2_counterexample :
    map (-50) 0 1023 0 180 = -8 ∧ map 2000 0 1023 0 180 = 351 ∧
    map (-50) 0 1023 0 180 ≠ 0 ∧ map 2000 0 1023 0 180 ≠ 180 := by
  decide

/-- C2 amended: for raw inputs outside `[0,1023]` the angle-scaling step
does NOT clamp; it extrapolates the linear map with truncating division,
`map(r, 0, 1023, 0, 180) = trunc(r * 180 / 1023)`, so `r = -50` yields
angle `-8` and `r = 2000` yields angle `351`. -/
theorem c2_amended_no_clamp :
    (∀ r : Int, map r 0 1023 0 180 = Int.tdiv (r * 180) 1023) ∧
    map (-50) 0 1023 0 180 = -8 ∧ map 2000 0 1023 0 180 = 351 := by
  refine ⟨fun r => ?_, by decide, by decide⟩
  unfold map
  rw [Int.sub_zero, Int.sub_zero, Int.sub_zero, Int.add_zero]

/-- C3: the simulator counter starts at `0`; after exactly `k` calls the
stored value is `(3k) mod 100`, each call returns exactly the value it
stores, and after 34 calls the value is `2`. -/
theorem c3_counter_closed_form :
    vswrIter 0 = 0 ∧
    (∀ k : Nat, vswrIter k = (3 * (k : Int)) % 100) ∧
    (∀ c : Int, (get_vswr c).1 = (get_vswr c).2) ∧
    vswrIter 34 = 2 := by
  refine ⟨rfl, vswrIter_eq, fun c => rfl, ?_⟩
  decide

/-- C4: from any starting global state with an in-range counter, three
consecutive iterations of `loop()` that read the switch LOW dispatch to
the automated handler three times (and to the manual handler zero
times), each iteration advancing the counter by exactly 3 modulo 100
(cumulatively +9), with the mode recomputed fresh from the switch on
every iteration regardless of the previous `state` value. -/
theorem c4_three_low_iterations (s : LoopState) (i1 i2 i3 : Inputs)
    (h1 : i1.switchLevel = DigitalLevel.LOW)
    (h2 : i2.switchLevel = DigitalLevel.LOW)
    (h3 : i3.switchLevel = DigitalLevel.LOW)
    (hc : 0 ≤ s.prev_vswr) :
    (loopRun [i1, i2, i3] s).1 =
      [Handler.automated, Handler.automated, Handler.automated] ∧
    ((loopRun [i1, i2, i3] s).1.count Handler.manual = 0) ∧
    ((loopStep i1 s).2.2).prev_vswr = (s.prev_vswr + 3) % 100 ∧
    ((loopStep i2 (loopStep i1 s).2.2).2.2).prev_vswr = (s.prev_vswr + 6) % 100 ∧
    ((loopRun [i1, i2, i3] s).2).prev_vswr = (s.prev_vswr + 9) % 100 ∧
    ((loopRun [i1, i2, i3] s).2).state = State.AUTOMATED := by
  obtain ⟨m1, m2, m3⟩ := counter_chain s.prev_vswr hc
  simp only [loopRun, loopStep_low, h1, h2, h3, m1, m2, m3]
  simp [List.count_cons, List.count_nil]

theorem c4_three_low_iterations_witness :
    (loopRun [⟨DigitalLevel.LOW, 0, 0⟩, ⟨DigitalLevel.LOW, 0, 0⟩,
        ⟨DigitalLevel.LOW, 0, 0⟩] ⟨State.MANUAL, 97⟩).1 =
      [Handler.automated, Handler.automated, Handler.automated] ∧
    ((loopRun [⟨DigitalLevel.LOW, 0, 0⟩, ⟨DigitalLevel.LOW, 0, 0⟩,
        ⟨DigitalLevel.LOW, 0, 0⟩] ⟨State.MANUAL, 97⟩).1.count Handler.manual = 0) ∧
    ((loopStep ⟨DigitalLevel.LOW, 0, 0⟩ ⟨State.MANUAL, 97⟩).2.2).prev_vswr =
      ((97 : Int) + 3) % 100 ∧
    ((loopStep ⟨DigitalLevel.LOW, 0, 0⟩
        (loopStep ⟨DigitalLevel.LOW, 0, 0⟩ ⟨State.MANUAL, 97⟩).2.2).2.2).prev_vswr =
      ((97 : Int) + 6) % 100 ∧
    ((loopRun [⟨DigitalLevel.LOW, 0, 0⟩, ⟨DigitalLevel.LOW, 0, 0⟩,
        ⟨DigitalLevel.LOW, 0, 0⟩] ⟨State.MANUAL, 97⟩).2).prev_vswr =
      ((97 : Int) + 9) % 100 ∧
    ((loopRun [⟨DigitalLevel.LOW, 0, 0⟩, ⟨DigitalLevel.LOW, 0, 0⟩,
        ⟨DigitalLevel.LOW, 0, 0⟩] ⟨State.MANUAL, 97⟩).2).state = State.AUTOMATED :=
  c4_three_low_iterations ⟨State.MANUAL, 97⟩ _ _ _ rfl rfl rfl (by decide)

/-- C5: the mode selector is total on the two digital levels, returning
MANUAL exactly on HIGH and AUTOMATED exactly on LOW, and the power-on
value of the mode variable is MANUAL. -/
theorem c5_mode_selector_total :
    (∀ d : DigitalLevel,
      (parseSwitchState d = State.MANUAL ↔ d = DigitalLevel.HIGH) ∧
      (parseSwitchState d = State.AUTOMATED ↔ d = DigitalLevel.LOW)) ∧
    initialState = State.MANUAL := by
  refine ⟨fun d => ?_, rfl⟩
  cases d <;> simp [parseSwitchState]

/-- C6: on every invocation, the automated handler writes to the tx
actuator the `map`-scaled value of the freshly sampled simulated signal
(the value `get_vswr` returns from the current counter) and writes the
fixed angle `0` to the ant actuator, unconditionally. -/
theorem c6_automated_writes (c : Int) :
    (controlServosAutomated c).1.tx_write =
      map (get_vswr c).1 0 1023 0 180 ∧
    (controlServosAutomated c).1.ant_write = 0 ∧
    (controlServosAutomated c).2 = (get_vswr c).2 := by
  exact ⟨rfl, rfl, rfl⟩

/-- C7: the simulated counter starts at 0 and every call to the
simulator preserves membership in `[0,100)`; consequently the counter
lies in `[0,100)` after any number of calls. -/
theorem c7_counter_invariant :
    prev_vswr_init = 0 ∧
    (∀ c : Int, 0 ≤ c → c < 100 →
      0 ≤ (get_vswr c).2 ∧ (get_vswr c).2 < 100) ∧
    (∀ k : Nat, 0 ≤ vswrIter k ∧ vswrIter k < 100) := by
  refine ⟨rfl, fun c hc0 hc1 => ?_, fun k => ?_⟩
  · rw [get_vswr_eq_emod c hc0]
    omega
  · rw [vswrIter_eq k]
    omega

theorem c7_counter_invariant_witness :
    0 ≤ (get_vswr 99).2 ∧ (get_vswr 99).2 < 100 :=
  c7_counter_invariant.2.1 99 (by decide) (by decide)

/-- C8: for every value `c` the counter can hold (the invariant range
`[0,100)`), the tx angle the automated handler computes and writes lies
in `[0,17]`. -/
theorem c8_automated_angle_le_17 (c : Int) (hc0 : 0 ≤ c) (hc1 : c < 100) :
    0 ≤ (controlServosAutomated c).1.tx_write ∧
    (controlServosAutomated c).1.tx_write ≤ 17 := by
  have hv : (controlServosAutomated c).1.tx_write =
      map ((c + 3) % 100) 0 1023 0 180 := by
    simp only [controlServosAutomated, get_vswr]
    rw [Int.tmod_eq_emod (by omega) (by norm_num)]
  rw [hv, map_eq_ediv_of_nonneg _ (Int.emod_nonneg _ (by norm_num))]
  omega

theorem c8_automated_angle_le_17_witness :
    0 ≤ (controlServosAutomated 96).1.tx_write ∧
    (controlServosAutomated 96).1.tx_write ≤ 17 :=
  c8_automated_angle_le_17 96 (by decide) (by decide)

/-- C9: with tx raw sample 512 and ant raw sample 1023, the manual
handler writes tx angle 90 and ant angle 180. -/
theorem c9_manual_512_1023 :
    (controlServosManual 512 1023 prev_vswr_init).1.tx_write = 90 ∧
    (controlServosManual 512 1023 prev_vswr_init).1.ant_write = 180 := by
  decide

/-- C10: the manual handler never changes the simulated counter, and a
run of `loop()` iterations that all read the switch HIGH (so all
dispatch to the manual handler) leaves the counter's value unchanged. -/
theorem c10_manual_frame (inps : List Inputs) (s : LoopState)
    (h : ∀ i ∈ inps, i.switchLevel = DigitalLevel.HIGH) :
    (∀ tx ant c : Int, (controlServosManual tx ant c).2 = c) ∧
    ((loopRun inps s).2).prev_vswr = s.prev_vswr := by
  refine ⟨fun tx ant c => rfl, ?_⟩
  induction inps generalizing s with
  | nil => rfl
  | cons i rest ih =>
      have hi : i.switchLevel = DigitalLevel.HIGH := h i (by simp)
      have hrest : ∀ j ∈ rest, j.switchLevel = DigitalLevel.HIGH :=
        fun j hj => h j (by simp [hj])
      simp only [loopRun, loopStep_high i s hi]
      exact ih _ hrest

theorem c10_manual_frame_witness :
    (∀ tx ant c : Int, (controlServosManual tx ant c).2 = c) ∧
    ((loopRun [⟨DigitalLevel.HIGH, 512, 1023⟩] ⟨State.AUTOMATED, 42⟩).2).prev_vswr =
      (⟨State.AUTOMATED, (42 : Int)⟩ : LoopState).prev_vswr :=
  c10_manual_frame [⟨DigitalLevel.HIGH, 512, 1023⟩] ⟨State.AUTOMATED, 42⟩
    (by decide)

end ImpedanceMatcher
